import Mathlib

/-!
Verification of the asynchronous job lifecycle and event-streaming core of
the travel budget estimator backend (`backend/app/repo.py`, `backend/app/main.py`,
`backend/app/models.py`, `backend/app/db.py`).

Modelling conventions of the shallow embedding:
* The database is a `Store`: the `estimate_jobs` table (unique key `job_id`)
  is a partial map `String → Option EstimateJob`; the `estimate_job_events`
  table is an append-only list together with the auto-increment counter
  `nextEventId` that hands out event primary keys.
* `datetime` timestamps are abstract instants modelled as `Nat`; `utcnow()`
  becomes an explicit `now` parameter threaded to each operation.
* Job statuses are the literal strings of `JobStatus`
  (`"queued" | "running" | "done" | "error" | "cancelled"`), as stored in the DB.
* Opaque JSON payloads (`result`, an event's `data` dict `\x7b"status": s\x7d`)
  are modelled as opaque strings: `result : Option String`, `data := some s`.
* Each `with get_session()` block commits atomically or rolls back wholly;
  a block is therefore one pure function `Store → Store × _`, which is the
  embedding of that atomic unit.
-/

namespace TravelBudget

/-- Request payload snapshot carried by a job (fields of `EstimateJobCreateRequest`
and the request columns of `estimate_jobs` in `models.py`). -/
structure Payload where
  trip_title : String
  origin : String
  destination : String
  start_date : String
  end_date : String
  travelers : Int
  currency : String
  budget_style : String
deriving DecidableEq, Repr

/-- Row of the `estimate_jobs` table (`EstimateJob` in `models.py`). -/
structure EstimateJob where
  job_id : String
  trip_title : String
  origin : String
  destination : String
  start_date : String
  end_date : String
  travelers : Int
  currency : String
  budget_style : String
  status : String
  created_at : Nat
  started_at : Option Nat
  finished_at : Option Nat
  error : Option String
  result : Option String
deriving DecidableEq, Repr

/-- Row of the `estimate_job_events` table (`EstimateJobEvent` in `models.py`);
`id` is the auto-increment primary key used as the stream cursor. -/
structure EstimateJobEvent where
  id : Nat
  job_id : String
  created_at : Nat
  type : String
  message : String
  data : Option String
deriving DecidableEq, Repr

/-- The database state: jobs keyed by `job_id` (unique index), the append-only
event log, and the auto-increment counter for event ids. -/
structure Store where
  jobs : String → Option EstimateJob
  events : List EstimateJobEvent
  nextEventId : Nat

/-- The dictionary produced by `job_to_dict` in `repo.py`: the externally
visible snapshot of a job (request columns are not included). -/
structure JobView where
  job_id : String
  status : String
  created_at : Nat
  started_at : Option Nat
  finished_at : Option Nat
  error : Option String
  result : Option String
deriving DecidableEq, Repr

/-- `job_to_dict` from `repo.py` (timestamps stay abstract instants rather
than ISO strings). -/
def job_to_dict (j : EstimateJob) : JobView :=
  { job_id := j.job_id
    status := j.status
    created_at := j.created_at
    started_at := j.started_at
    finished_at := j.finished_at
    error := j.error
    result := j.result }

/-- `_append_event_in_session` from `repo.py`: adds one event row whose id is
the next auto-increment value. -/
def _append_event_in_session (st : Store) (job_id : String) (type : String)
    (message : String) (data : Option String) (now : Nat) : Store :=
  { st with
    events := st.events ++
      [{ id := st.nextEventId, job_id := job_id, created_at := now,
         type := type, message := message, data := data }]
    nextEventId := st.nextEventId + 1 }

/-- `create_job` from `repo.py`: inserts the job row with status `"queued"`
and appends the initial `"Job queued"` status event, in one session
(one atomic unit). -/
def create_job (st : Store) (payload : Payload) (job_id : String) (now : Nat) :
    Store × JobView :=
  let job : EstimateJob :=
    { job_id := job_id
      trip_title := payload.trip_title
      origin := payload.origin
      destination := payload.destination
      start_date := payload.start_date
      end_date := payload.end_date
      travelers := payload.travelers
      currency := payload.currency
      budget_style := payload.budget_style
      status := "queued"
      created_at := now
      started_at := none
      finished_at := none
      error := none
      result := none }
  let st1 : Store := { st with jobs := fun s => if s = job_id then some job else st.jobs s }
  let st2 := _append_event_in_session st1 job_id "status" "Job queued" (some "queued") now
  (st2, job_to_dict job)

/-- `get_job` from `repo.py`. -/
def get_job (st : Store) (job_id : String) : Option JobView :=
  (st.jobs job_id).map job_to_dict

/-- The row mutation block of `update_job_status` (`repo.py` lines 78-87):
`job.status = status`; `started_at` assigned only when `set_started` holds
and it is still unset (`if set_started and job.started_at is None`);
`finished_at` assigned whenever `set_finished` holds; `error`/`result`
assigned only when the argument is not `None`. -/
def appliedJob (job : EstimateJob) (status : String)
    (error : Option String) (result : Option String)
    (set_started : Bool) (set_finished : Bool) (now : Nat) : EstimateJob :=
  { job with
    status := status
    started_at :=
      if set_started = true ∧ job.started_at = none then some now
      else job.started_at
    finished_at := if set_finished = true then some now else job.finished_at
    error := match error with | some e => some e | none => job.error
    result := match result with | some r => some r | none => job.result }

/-- The event message of `update_job_status` (`repo.py` lines 89-91):
`"Error: ..."` exactly when `error` is truthy in Python, i.e. a non-`None`,
non-empty string; otherwise `"Status changed to ..."`. -/
def transitionMessage (status : String) (error : Option String) : String :=
  match error with
  | some e => if e = "" then "Status changed to " ++ status else "Error: " ++ e
  | none => "Status changed to " ++ status

/-- `update_job_status` from `repo.py`. Returns `none` when the job id is
unknown. When the current status is `"cancelled"` and the target is
`"done"` or `"error"`, returns the unchanged current snapshot without
mutating anything (the race guard comment in the source:
"Do not overwrite a cancelled job with a completed result").
Otherwise mutates the row (`appliedJob`) and appends exactly one status
event with message `transitionMessage` in the same session. -/
def update_job_status (st : Store) (job_id : String) (status : String)
    (error : Option String) (result : Option String)
    (set_started : Bool) (set_finished : Bool) (now : Nat) :
    Store × Option JobView :=
  match st.jobs job_id with
  | none => (st, none)
  | some job =>
    if job.status = "cancelled" ∧ (status = "done" ∨ status = "error") then
      (st, some (job_to_dict job))
    else
      let job1 := appliedJob job status error result set_started set_finished now
      let st1 : Store :=
        { st with jobs := fun s => if s = job_id then some job1 else st.jobs s }
      let st2 := _append_event_in_session st1 job_id "status"
        (transitionMessage status error) (some status) now
      (st2, some (job_to_dict job1))

/-- `cancel_job` from `repo.py`. -/
def cancel_job (st : Store) (job_id : String) (now : Nat) : Store × Option JobView :=
  update_job_status st job_id "cancelled" none none false true now

/-- `append_event` from `repo.py`: one event appended in its own session. -/
def append_event (st : Store) (job_id : String) (type : String) (message : String)
    (data : Option String) (now : Nat) : Store :=
  _append_event_in_session st job_id type message data now

/-- Insertion step of the `ORDER BY id ASC` model. -/
def insertById (e : EstimateJobEvent) : List EstimateJobEvent → List EstimateJobEvent
  | [] => [e]
  | x :: xs => if e.id ≤ x.id then e :: x :: xs else x :: insertById e xs

/-- Sorting by event id, modelling the `ORDER BY EstimateJobEvent.id.asc()`
clause of `get_events_since`. -/
def sortById : List EstimateJobEvent → List EstimateJobEvent
  | [] => []
  | x :: xs => insertById x (sortById xs)

/-- The `WHERE EstimateJobEvent.id > last_id` clause of `get_events_since`
(absent when no cursor was supplied). The cursor is an `Int` because it
comes from Python's unbounded `int()` on a client header. -/
def matchCursor (last_id : Option Int) (e : EstimateJobEvent) : Bool :=
  match last_id with
  | some c => c < (e.id : Int)
  | none => true

/-- `get_events_since` from `repo.py`: all events of the job with id strictly
greater than the cursor (all of them when no cursor), ordered by id ascending. -/
def get_events_since (st : Store) (job_id : String) (last_id : Option Int) :
    List EstimateJobEvent :=
  sortById (st.events.filter (fun e => e.job_id == job_id && matchCursor last_id e))

/-- An estimator outcome for `run_budget_estimate` in `_run_job`: either an
opaque result payload or a raised exception, modelled as the pair of the
exception's type name and message (the two pieces `_run_job` interpolates
into `f"\x7btype(e).__name__\x7d: \x7be\x7d"`). -/
def EstimatorOutcome := Except (String × String) String

/-- `_run_job` from `main.py`, with the opaque estimator replaced by its
outcome and the three `utcnow()` instants it can write passed explicitly.
It first transitions the job to `"running"` (with `set_started`), then on
estimator success writes `"done"` with the result and appends the
`"Job completed"` progress event, and on any estimator exception writes
`"error"` with `error = kind ++ ": " ++ msg` (with `set_finished`).
The function is total: the exception is absorbed, never propagated. -/
def _run_job (st : Store) (job_id : String) (estimate : EstimatorOutcome)
    (t1 t2 t3 : Nat) : Store :=
  let st1 := (update_job_status st job_id "running" none none true false t1).1
  match estimate with
  | Except.ok result =>
    let st2 := (update_job_status st1 job_id "done" none (some result) false true t2).1
    append_event st2 job_id "progress" "Job completed" (some "done") t3
  | Except.error (ekind, emsg) =>
    (update_job_status st1 job_id "error" (some (ekind ++ ": " ++ emsg)) none false true t2).1

/-- `GET /api/estimate-jobs/\x7bjob_id\x7d` from `main.py`: `none` models the
404 response. -/
def get_estimate_job (st : Store) (job_id : String) : Option JobView :=
  get_job st job_id

/-- `POST /api/estimate-jobs/\x7bjob_id\x7d/cancel` from `main.py`: calls
`cancel_job`; on `None` raises 404 (modelled as `none`) before any further
write; otherwise appends a second `"Job cancelled"` status event in a
separate session and returns the snapshot from `cancel_job`. -/
def cancel_estimate_job (st : Store) (job_id : String) (now : Nat) :
    Store × Option JobView :=
  match cancel_job st job_id now with
  | (st1, none) => (st1, none)
  | (st1, some job) =>
    let st2 := append_event st1 job_id "status" "Job cancelled" (some "cancelled") now
    (st2, some job)

/-- Digit run of Python's `int(str)` grammar after the first digit: further
digits, with single underscores allowed between digits. -/
def pyDigitsAcc : List Char → Nat → Option Nat
  | [], acc => some acc
  | '_' :: c :: cs, acc =>
    if c.isDigit then pyDigitsAcc cs (acc * 10 + (c.toNat - 48)) else none
  | c :: cs, acc =>
    if c.isDigit then pyDigitsAcc cs (acc * 10 + (c.toNat - 48)) else none

/-- Unsigned part of Python's `int(str)`: a leading digit then `pyDigitsAcc`. -/
def pyUnsigned : List Char → Option Nat
  | c :: cs => if c.isDigit then pyDigitsAcc cs (c.toNat - 48) else none
  | [] => none

/-- Model of Python's built-in `int(s)` on a string: strip surrounding
whitespace, allow one optional sign, then a digit run with optional single
underscores between digits; anything else raises `ValueError`, modelled
as `none`. -/
def pyIntOfString (s : String) : Option Int :=
  let cs := ((s.data.dropWhile Char.isWhitespace).reverse.dropWhile Char.isWhitespace).reverse
  match cs with
  | '+' :: rest => (pyUnsigned rest).map Int.ofNat
  | '-' :: rest => (pyUnsigned rest).map (fun n => -(Int.ofNat n))
  | _ => (pyUnsigned cs).map Int.ofNat

/-- The `Last-Event-ID` handling of `stream_estimate_job_events` in `main.py`:
`int(header) if header else None` guarded by `except ValueError: last_id = None`.
A missing or empty header (Python falsiness) gives no cursor; an unparsable
header also gives no cursor. -/
def parseLastEventId (header : Option String) : Option Int :=
  match header with
  | none => none
  | some s =>
    if s = "" then none
    else
      match pyIntOfString s with
      | some n => some n
      | none => none

/-- `GET /api/estimate-jobs/\x7bjob_id\x7d/events` from `main.py`, up to the
point the stream is opened: the existence check (404 modelled as `none`,
returned before any generator is created) and the initial cursor the
polling generator starts from. The polling loop itself repeatedly calls
`get_events_since job_id last_id`, so `some c` means the stream is opened
and its first fetch is `get_events_since st job_id c`. -/
def stream_estimate_job_events (st : Store) (job_id : String)
    (header : Option String) : Option (Option Int) :=
  match get_job st job_id with
  | none => none
  | some _ => some (parseLastEventId header)

/-- Concrete request payload used by the concrete evaluations below
(Scenario A of the spec: origin KUL, destination NRT, two travelers). -/
def basePayload : Payload :=
  { trip_title := "Tokyo Trip"
    origin := "KUL"
    destination := "NRT"
    start_date := "2026-01-01"
    end_date := "2026-01-05"
    travelers := 2
    currency := "MYR"
    budget_style := "midrange" }

/-- Concrete queued job `"j1"`. -/
def queuedJob : EstimateJob :=
  { job_id := "j1"
    trip_title := basePayload.trip_title
    origin := basePayload.origin
    destination := basePayload.destination
    start_date := basePayload.start_date
    end_date := basePayload.end_date
    travelers := basePayload.travelers
    currency := basePayload.currency
    budget_style := basePayload.budget_style
    status := "queued"
    created_at := 0
    started_at := none
    finished_at := none
    error := none
    result := none }

/-- Concrete job `"j1"` that has already been cancelled (finished at instant 1). -/
def cancelledJob : EstimateJob :=
  { queuedJob with status := "cancelled", finished_at := some 1 }

/-- Concrete job `"j1"` that already completed with a result. -/
def doneJob : EstimateJob :=
  { queuedJob with
    status := "done", started_at := some 1, finished_at := some 2, result := some "res" }

/-- A store holding exactly the single job `j` under id `"j1"`, with an
empty event log. -/
def mkStore (j : EstimateJob) : Store :=
  { jobs := fun s => if s = "j1" then some j else none
    events := []
    nextEventId := 1 }

/-- The empty store. -/
def emptyStore : Store :=
  { jobs := fun _ => none, events := [], nextEventId := 1 }

/-- Concrete event 1 of job `"j1"`. -/
def ev1 : EstimateJobEvent :=
  { id := 1, job_id := "j1", created_at := 0, type := "status",
    message := "Job queued", data := some "queued" }

/-- Concrete event 2 of job `"j1"`. -/
def ev2 : EstimateJobEvent :=
  { id := 2, job_id := "j1", created_at := 1, type := "status",
    message := "Status changed to running", data := some "running" }

/-- A store with job `"j1"` and its two events. -/
def eventStore : Store :=
  { jobs := fun s => if s = "j1" then some queuedJob else none
    events := [ev1, ev2]
    nextEventId := 3 }

/-! ## Helper lemmas -/

/-- Characterization of `update_job_status` on an unknown job id: nothing
happens and `none` is returned. -/
theorem update_job_status_not_found (st : Store) (job_id status : String)
    (error result : Option String) (set_started set_finished : Bool) (now : Nat)
    (h : st.jobs job_id = none) :
    update_job_status st job_id status error result set_started set_finished now
      = (st, none) := by
  unfold update_job_status
  rw [h]

/-- Characterization of `update_job_status` on an accepted transition (job
present, race guard not triggered): the job row is replaced by
`appliedJob`, exactly one status event is appended, and the updated
snapshot is returned. -/
theorem update_job_status_accepted (st : Store) (job_id status : String)
    (error result : Option String) (set_started set_finished : Bool) (now : Nat)
    (j : EstimateJob) (hfind : st.jobs job_id = some j)
    (hguard : ¬(j.status = "cancelled" ∧ (status = "done" ∨ status = "error"))) :
    update_job_status st job_id status error result set_started set_finished now
      = ({ jobs := fun s =>
             if s = job_id then
               some (appliedJob j status error result set_started set_finished now)
             else st.jobs s
           events := st.events ++
             [{ id := st.nextEventId, job_id := job_id, created_at := now,
                type := "status", message := transitionMessage status error,
                data := some status }]
           nextEventId := st.nextEventId + 1 },
         some (job_to_dict (appliedJob j status error result set_started set_finished now))) := by
  unfold update_job_status
  rw [hfind]
  simp only [_append_event_in_session]
  rw [if_neg hguard]

/-- Inserting an element no larger than everything in the list puts it in
front. -/
theorem insertById_of_forall_le (e : EstimateJobEvent) (l : List EstimateJobEvent)
    (h : ∀ x ∈ l, e.id ≤ x.id) : insertById e l = e :: l := by
  cases l with
  | nil => rfl
  | cons x xs =>
    simp only [insertById]
    rw [if_pos (h x (List.mem_cons_self x xs))]

/-- `sortById` is the identity on a log whose ids are already strictly
increasing. -/
theorem sortById_eq_of_sorted (l : List EstimateJobEvent)
    (h : l.Pairwise (fun a b => a.id < b.id)) : sortById l = l := by
  induction l with
  | nil => rfl
  | cons x xs ih =>
    rw [List.pairwise_cons] at h
    simp only [sortById]
    rw [ih h.2, insertById_of_forall_le]
    intro y hy
    exact le_of_lt (h.1 y hy)

/-- Membership through `insertById`. -/
theorem mem_insertById (a e : EstimateJobEvent) (l : List EstimateJobEvent) :
    a ∈ insertById e l ↔ a = e ∨ a ∈ l := by
  induction l with
  | nil => simp [insertById]
  | cons x xs ih =>
    simp only [insertById]
    by_cases hle : e.id ≤ x.id
    · rw [if_pos hle]
      simp [List.mem_cons]
    · rw [if_neg hle]
      simp only [List.mem_cons, ih]
      tauto

/-- `sortById` neither adds nor drops events. -/
theorem mem_sortById (a : EstimateJobEvent) (l : List EstimateJobEvent) :
    a ∈ sortById l ↔ a ∈ l := by
  induction l with
  | nil => simp [sortById]
  | cons x xs ih =>
    simp only [sortById, mem_insertById, ih, List.mem_cons]

/-! ## Claims -/

/-- C1: for every job whose current status is `"cancelled"`, a transition
attempt into `"done"` or `"error"` via `update_job_status` is a no-op: the
store (jobs, events, counter) is returned unchanged and the current
snapshot of the job is returned, so no field of the job changes, `result`
stays unset, and no event is appended. -/
theorem C1_cancelled_blocks_done_error (st : Store) (job_id status : String)
    (error result : Option String) (set_started set_finished : Bool) (now : Nat)
    (j : EstimateJob) (hfind : st.jobs job_id = some j)
    (hcur : j.status = "cancelled")
    (htgt : status = "done" ∨ status = "error") :
    update_job_status st job_id status error result set_started set_finished now
      = (st, some (job_to_dict j)) := by
  unfold update_job_status
  rw [hfind]
  exact if_pos ⟨hcur, htgt⟩

/-- Witness for C1 at a concrete cancelled job and a `"done"` attempt
carrying a result. -/
theorem C1_witness :
    ((mkStore cancelledJob).jobs "j1" = some cancelledJob
      ∧ cancelledJob.status = "cancelled"
      ∧ (("done" : String) = "done" ∨ ("done" : String) = "error"))
    ∧ update_job_status (mkStore cancelledJob) "j1" "done" none (some "res") false true 5
        = (mkStore cancelledJob, some (job_to_dict cancelledJob)) :=
  ⟨⟨by decide, by decide, Or.inl rfl⟩,
   C1_cancelled_blocks_done_error (mkStore cancelledJob) "j1" "done" none (some "res")
     false true 5 cancelledJob (by decide) (by decide) (Or.inl rfl)⟩

/-- C2: evaluation of the code at the failing input. The claim (and the
spec) say the runner's start transition is valid only from `"queued"` and
is a no-op on a cancelled job; the code's only guard
(`repo.py` line 75) checks the target statuses `"done"`/`"error"`, so a start
transition on a cancelled job sets its status to `"running"` — and the
runner's subsequent completion write then lands, turning the cancelled
job into `"done"` with a stored result. -/
theorem C2_start_transition_overwrites_cancelled :
    ((update_job_status (mkStore cancelledJob) "j1" "running" none none true false 2).1.jobs
        "j1").map EstimateJob.status = some "running"
    ∧ ((_run_job (mkStore cancelledJob) "j1" (Except.ok "res") 2 3 4).jobs "j1").map
        EstimateJob.status = some "done"
    ∧ ((_run_job (mkStore cancelledJob) "j1" (Except.ok "res") 2 3 4).jobs "j1").map
        EstimateJob.result = some (some "res") := by
  decide

/-- C3 counterexample: `doneJob` is in the terminal status `"done"`, yet the
cancel transition changes its status to `"cancelled"` — the code restricts
no transition out of a terminal status except `"cancelled" → "done"/"error"`. -/
theorem C3_counterexample :
    doneJob.status = "done"
    ∧ ((cancel_job (mkStore doneJob) "j1" 7).1.jobs "j1").map EstimateJob.status
        = some "cancelled" := by
  decide

/-- C3 (amended): only the transitions into `"done"`/`"error"` are blocked on
a cancelled job; the cancel transition is accepted from every current
status, including the terminal ones. It always sets the status to
`"cancelled"`, overwrites `finished_at` with the current instant, appends
exactly one event, and leaves `error` and `result` untouched — so
cancelling a `"done"`/`"error"` job mutates it, and re-cancelling a
cancelled job keeps the status but refreshes `finished_at`. -/
theorem C3_cancel_accepted_from_any_status (st : Store) (job_id : String) (now : Nat)
    (j : EstimateJob) (hfind : st.jobs job_id = some j) :
    (cancel_job st job_id now).1.jobs job_id
        = some { j with status := "cancelled", finished_at := some now }
    ∧ (cancel_job st job_id now).1.events.length = st.events.length + 1
    ∧ (cancel_job st job_id now).2
        = some (job_to_dict { j with status := "cancelled", finished_at := some now }) := by
  have hguard : ¬(j.status = "cancelled"
      ∧ (("cancelled" : String) = "done" ∨ ("cancelled" : String) = "error")) := by
    simp
  unfold cancel_job
  rw [update_job_status_accepted st job_id "cancelled" none none false true now j hfind hguard]
  refine ⟨?_, by simp, ?_⟩ <;> simp [appliedJob]

/-- Witness for C3 at a concrete `"done"` job. -/
theorem C3_witness :
    ((mkStore doneJob).jobs "j1" = some doneJob)
    ∧ ((cancel_job (mkStore doneJob) "j1" 7).1.jobs "j1"
          = some { doneJob with status := "cancelled", finished_at := some 7 }
        ∧ (cancel_job (mkStore doneJob) "j1" 7).1.events.length
            = (mkStore doneJob).events.length + 1
        ∧ (cancel_job (mkStore doneJob) "j1" 7).2
            = some (job_to_dict { doneJob with status := "cancelled", finished_at := some 7 })) :=
  ⟨by decide, C3_cancel_accepted_from_any_status (mkStore doneJob) "j1" 7 doneJob (by decide)⟩

/-- C4 counterexample: `cancelledJob` already has `finished_at = some 1`,
yet a second cancel at instant 7 overwrites it with `some 7` — the code
assigns `finished_at` unconditionally whenever `set_finished` holds
(`repo.py` line 82-83 has no `is None` check, unlike `started_at`). -/
theorem C4_counterexample :
    cancelledJob.finished_at = some 1
    ∧ ((cancel_job (mkStore cancelledJob) "j1" 7).1.jobs "j1").map EstimateJob.finished_at
        = some (some 7) := by
  decide

/-- C4 (amended): on every accepted transition, `started_at` is assigned only
when `set_started` holds and it is still unset — so it is set at most once
and a second start attempt leaves it unchanged; `finished_at`, however, is
assigned on every transition with `set_finished`, overwriting any
previously set value (e.g. on a re-cancel). -/
theorem C4_timestamp_assignment (st : Store) (job_id status : String)
    (error result : Option String) (set_started set_finished : Bool) (now : Nat)
    (j : EstimateJob) (hfind : st.jobs job_id = some j)
    (hguard : ¬(j.status = "cancelled" ∧ (status = "done" ∨ status = "error"))) :
    ((update_job_status st job_id status error result set_started set_finished now).1.jobs
        job_id).map EstimateJob.started_at
      = some (if set_started = true ∧ j.started_at = none then some now else j.started_at)
    ∧ ((update_job_status st job_id status error result set_started set_finished now).1.jobs
        job_id).map EstimateJob.finished_at
      = some (if set_finished = true then some now else j.finished_at) := by
  rw [update_job_status_accepted st job_id status error result set_started set_finished now
    j hfind hguard]
  constructor <;> simp [appliedJob]

/-- Witness for C4 at a concrete job whose `started_at` is already set: the
start flag leaves it at `some 1` while `finished_at` is overwritten. -/
theorem C4_witness :
    ((mkStore doneJob).jobs "j1" = some doneJob
      ∧ ¬(doneJob.status = "cancelled"
          ∧ (("running" : String) = "done" ∨ ("running" : String) = "error")))
    ∧ (((update_job_status (mkStore doneJob) "j1" "running" none none true true 9).1.jobs
          "j1").map EstimateJob.started_at
        = some (if true = true ∧ doneJob.started_at = none then some 9 else doneJob.started_at)
      ∧ ((update_job_status (mkStore doneJob) "j1" "running" none none true true 9).1.jobs
          "j1").map EstimateJob.finished_at
        = some (if true = true then some 9 else doneJob.finished_at)) :=
  ⟨⟨by decide, by decide⟩,
   C4_timestamp_assignment (mkStore doneJob) "j1" "running" none none true true 9 doneJob
     (by decide) (by decide)⟩

/-- C5 counterexample: a single cancel through the cancel endpoint appends
two status events — one inside `cancel_job` (`"Status changed to
cancelled"`) and a second `"Job cancelled"` event appended by the endpoint
in a separate session — not exactly one. -/
theorem C5_counterexample :
    (mkStore queuedJob).events.length = 0
    ∧ (cancel_estimate_job (mkStore queuedJob) "j1" 5).1.events.length = 2
    ∧ ((cancel_estimate_job (mkStore queuedJob) "j1" 5).1.events.map EstimateJobEvent.type)
        = ["status", "status"] := by
  decide

/-- C5 (amended): every accepted transition through `update_job_status`
appends exactly one status event describing the new status (with the error
text when the error string is truthy) in the same atomic unit as the job
mutation; the cancel endpoint, however, performs one such transition and
then appends a second `"Job cancelled"` status event in a separate unit,
so a successful endpoint cancel appends two events in total. -/
theorem C5_one_event_per_transition (st : Store) (job_id status : String)
    (error result : Option String) (set_started set_finished : Bool) (now : Nat)
    (j : EstimateJob) (hfind : st.jobs job_id = some j)
    (hguard : ¬(j.status = "cancelled" ∧ (status = "done" ∨ status = "error"))) :
    (update_job_status st job_id status error result set_started set_finished now).1.events
      = st.events ++
        [{ id := st.nextEventId, job_id := job_id, created_at := now, type := "status",
           message := transitionMessage status error, data := some status }]
    ∧ (cancel_estimate_job st job_id now).1.events.length = st.events.length + 2 := by
  constructor
  · rw [update_job_status_accepted st job_id status error result set_started set_finished now
      j hfind hguard]
  · unfold cancel_estimate_job cancel_job
    rw [update_job_status_accepted st job_id "cancelled" none none false true now j hfind
      (by simp)]
    simp [append_event, _append_event_in_session]

/-- Witness for C5 at a concrete queued job and a `"running"` transition. -/
theorem C5_witness :
    ((mkStore queuedJob).jobs "j1" = some queuedJob
      ∧ ¬(queuedJob.status = "cancelled"
          ∧ (("running" : String) = "done" ∨ ("running" : String) = "error")))
    ∧ ((update_job_status (mkStore queuedJob) "j1" "running" none none true false 2).1.events
        = (mkStore queuedJob).events ++
          [{ id := (mkStore queuedJob).nextEventId, job_id := "j1", created_at := 2,
             type := "status", message := transitionMessage "running" none,
             data := some "running" }]
      ∧ (cancel_estimate_job (mkStore queuedJob) "j1" 2).1.events.length
          = (mkStore queuedJob).events.length + 2) :=
  ⟨⟨by decide, by decide⟩,
   C5_one_event_per_transition (mkStore queuedJob) "j1" "running" none none true false 2
     queuedJob (by decide) (by decide)⟩

/-- C6: the events-since query returns exactly the events of the job whose
cursor is strictly greater than the supplied cursor (`matchCursor` is
identically true when no cursor is supplied, so then all of the job's
events are returned), in strictly ascending cursor order; and its output
depends only on the event log, so two calls with the same job id and
cursor with no events appended in between return identical results. -/
theorem C6_events_since_exact (st : Store) (job_id : String) (c : Option Int)
    (hsorted : st.events.Pairwise (fun a b => a.id < b.id)) :
    (∀ e, e ∈ get_events_since st job_id c
        ↔ (e ∈ st.events ∧ e.job_id = job_id ∧ matchCursor c e = true))
    ∧ (get_events_since st job_id c).Pairwise (fun a b => a.id < b.id)
    ∧ (∀ st' : Store, st'.events = st.events →
        get_events_since st' job_id c = get_events_since st job_id c) := by
  have hfil : (st.events.filter
      (fun e => e.job_id == job_id && matchCursor c e)).Pairwise
        (fun a b => a.id < b.id) :=
    List.Pairwise.sublist (List.filter_sublist _) hsorted
  refine ⟨?_, ?_, ?_⟩
  · intro e
    unfold get_events_since
    rw [sortById_eq_of_sorted _ hfil]
    simp [List.mem_filter, and_assoc]
  · unfold get_events_since
    rw [sortById_eq_of_sorted _ hfil]
    exact hfil
  · intro st' h
    unfold get_events_since
    rw [h]

/-- Witness for C6 at a concrete two-event log and cursor 1. -/
theorem C6_witness :
    (eventStore.events.Pairwise (fun a b => a.id < b.id))
    ∧ ((∀ e, e ∈ get_events_since eventStore "j1" (some 1)
          ↔ (e ∈ eventStore.events ∧ e.job_id = "j1" ∧ matchCursor (some 1) e = true))
      ∧ (get_events_since eventStore "j1" (some 1)).Pairwise (fun a b => a.id < b.id)
      ∧ (∀ st' : Store, st'.events = eventStore.events →
          get_events_since st' "j1" (some 1) = get_events_since eventStore "j1" (some 1))) :=
  ⟨by decide, C6_events_since_exact eventStore "j1" (some 1) (by decide)⟩

/-- C7: creating a job under a fresh id persists, in one atomic session, the
job row with status `"queued"`, `created_at` equal to the current instant
and `started_at`, `finished_at`, `error`, `result` all unset, together
with exactly one initial status event with message `"Job queued"`; the
returned snapshot shows the same queued state. Partial commits cannot
occur: the session either commits the job and its event together or rolls
both back. -/
theorem C7_create_job_initial_state (st : Store) (payload : Payload)
    (job_id : String) (now : Nat)
    (hfresh : st.jobs job_id = none)
    (hnoev : st.events.filter (fun e => e.job_id == job_id) = []) :
    (create_job st payload job_id now).2
      = { job_id := job_id, status := "queued", created_at := now,
          started_at := none, finished_at := none, error := none, result := none }
    ∧ (create_job st payload job_id now).1.jobs job_id
      = some { job_id := job_id, trip_title := payload.trip_title,
               origin := payload.origin, destination := payload.destination,
               start_date := payload.start_date, end_date := payload.end_date,
               travelers := payload.travelers, currency := payload.currency,
               budget_style := payload.budget_style, status := "queued",
               created_at := now, started_at := none, finished_at := none,
               error := none, result := none }
    ∧ (create_job st payload job_id now).1.events.filter (fun e => e.job_id == job_id)
      = [{ id := st.nextEventId, job_id := job_id, created_at := now, type := "status",
           message := "Job queued", data := some "queued" }]
    ∧ (create_job st payload job_id now).1.nextEventId = st.nextEventId + 1
    ∧ get_job st job_id = none := by
  refine ⟨rfl, by simp [create_job, _append_event_in_session], ?_, rfl,
    by simp [get_job, hfresh]⟩
  simp only [create_job, _append_event_in_session]
  rw [List.filter_append, hnoev]
  simp

/-- Witness for C7 creating a job in the empty store. -/
theorem C7_witness :
    (emptyStore.jobs "j1" = none
      ∧ emptyStore.events.filter (fun e => e.job_id == "j1") = [])
    ∧ ((create_job emptyStore basePayload "j1" 0).2
        = { job_id := "j1", status := "queued", created_at := 0,
            started_at := none, finished_at := none, error := none, result := none }
      ∧ (create_job emptyStore basePayload "j1" 0).1.jobs "j1"
        = some { job_id := "j1", trip_title := basePayload.trip_title,
                 origin := basePayload.origin, destination := basePayload.destination,
                 start_date := basePayload.start_date, end_date := basePayload.end_date,
                 travelers := basePayload.travelers, currency := basePayload.currency,
                 budget_style := basePayload.budget_style, status := "queued",
                 created_at := 0, started_at := none, finished_at := none,
                 error := none, result := none }
      ∧ (create_job emptyStore basePayload "j1" 0).1.events.filter
          (fun e => e.job_id == "j1")
        = [{ id := emptyStore.nextEventId, job_id := "j1", created_at := 0,
             type := "status", message := "Job queued", data := some "queued" }]
      ∧ (create_job emptyStore basePayload "j1" 0).1.nextEventId
          = emptyStore.nextEventId + 1
      ∧ get_job emptyStore "j1" = none) :=
  ⟨⟨by decide, by decide⟩,
   C7_create_job_initial_state emptyStore basePayload "j1" 0 (by decide) (by decide)⟩

/-- C8: for every exception raised by the opaque estimator, the runner
records status `"error"` on the job, with the error field set to the
captured description `kind ++ ": " ++ message` and `finished_at` set to
the instant of the failure write; `_run_job` is a total function on the
estimator's outcome, so the exception never propagates out of the runner
(a single job's failure cannot crash the service). -/
theorem C8_estimator_failure_captured (st : Store) (job_id ekind emsg : String)
    (t1 t2 t3 : Nat) (j : EstimateJob) (hfind : st.jobs job_id = some j) :
    ((_run_job st job_id (Except.error (ekind, emsg)) t1 t2 t3).jobs job_id).map
        EstimateJob.status = some "error"
    ∧ ((_run_job st job_id (Except.error (ekind, emsg)) t1 t2 t3).jobs job_id).map
        EstimateJob.error = some (some (ekind ++ ": " ++ emsg))
    ∧ ((_run_job st job_id (Except.error (ekind, emsg)) t1 t2 t3).jobs job_id).map
        EstimateJob.finished_at = some (some t2) := by
  unfold _run_job
  rw [update_job_status_accepted st job_id "running" none none true false t1 j hfind
    (by simp)]
  simp only []
  rw [update_job_status_accepted _ job_id "error" (some (ekind ++ ": " ++ emsg)) none
    false true t2 (appliedJob j "running" none none true false t1) (by simp)
    (by simp [appliedJob])]
  simp [appliedJob]

/-- Witness for C8 with a concrete `ValueError` from the estimator. -/
theorem C8_witness :
    ((mkStore queuedJob).jobs "j1" = some queuedJob)
    ∧ (((_run_job (mkStore queuedJob) "j1" (Except.error ("ValueError", "boom")) 2 3 4).jobs
          "j1").map EstimateJob.status = some "error"
      ∧ ((_run_job (mkStore queuedJob) "j1" (Except.error ("ValueError", "boom")) 2 3 4).jobs
          "j1").map EstimateJob.error = some (some ("ValueError" ++ ": " ++ "boom"))
      ∧ ((_run_job (mkStore queuedJob) "j1" (Except.error ("ValueError", "boom")) 2 3 4).jobs
          "j1").map EstimateJob.finished_at = some (some 3)) :=
  ⟨by decide,
   C8_estimator_failure_captured (mkStore queuedJob) "j1" "ValueError" "boom" 2 3 4
     queuedJob (by decide)⟩

/-- C9: for a job id not present in the store, the get endpoint returns the
not-found response, the cancel endpoint returns not-found with the store
completely unchanged (no job mutated, no event appended — the 404 is
raised before the endpoint's extra `append_event`), and the streaming
endpoint returns not-found without opening a stream. -/
theorem C9_unknown_id_not_found (st : Store) (job_id : String) (now : Nat)
    (header : Option String) (hnone : st.jobs job_id = none) :
    get_estimate_job st job_id = none
    ∧ cancel_estimate_job st job_id now = (st, none)
    ∧ stream_estimate_job_events st job_id header = none := by
  refine ⟨?_, ?_, ?_⟩
  · simp [get_estimate_job, get_job, hnone]
  · unfold cancel_estimate_job cancel_job
    rw [update_job_status_not_found st job_id "cancelled" none none false true now hnone]
  · simp [stream_estimate_job_events, get_job, hnone]

/-- Witness for C9 at an id absent from a nonempty store. -/
theorem C9_witness :
    (eventStore.jobs "zz" = none)
    ∧ (get_estimate_job eventStore "zz" = none
      ∧ cancel_estimate_job eventStore "zz" 5 = (eventStore, none)
      ∧ stream_estimate_job_events eventStore "zz" (some "1") = none) :=
  ⟨by decide, C9_unknown_id_not_found eventStore "zz" 5 (some "1") (by decide)⟩

/-- C10: a `Last-Event-ID` header that does not parse as a Python integer is
treated exactly as if no header were supplied — the stream endpoint
behaves identically in both cases (in particular it does not fail: the
stream still opens when the job exists) — and the resulting absent cursor
makes the event query return every event of the job, replaying the log
from the beginning. -/
theorem C10_bad_header_no_cursor (st : Store) (job_id s : String)
    (hbad : pyIntOfString s = none) :
    stream_estimate_job_events st job_id (some s) = stream_estimate_job_events st job_id none
    ∧ (∀ e, e ∈ get_events_since st job_id none ↔ (e ∈ st.events ∧ e.job_id = job_id)) := by
  constructor
  · have hp : parseLastEventId (some s) = none := by
      simp only [parseLastEventId]
      by_cases hs : s = ""
      · rw [if_pos hs]
      · rw [if_neg hs, hbad]
    unfold stream_estimate_job_events
    rw [hp]
    rfl
  · intro e
    unfold get_events_since
    rw [mem_sortById]
    simp [List.mem_filter, matchCursor]

/-- Witness for C10 with the unparsable header `"abc"` on a two-event log. -/
theorem C10_witness :
    (pyIntOfString "abc" = none)
    ∧ (stream_estimate_job_events eventStore "j1" (some "abc")
        = stream_estimate_job_events eventStore "j1" none
      ∧ (∀ e, e ∈ get_events_since eventStore "j1" none
          ↔ (e ∈ eventStore.events ∧ e.job_id = "j1"))) :=
  ⟨by decide, C10_bad_header_no_cursor eventStore "j1" "abc" (by decide)⟩

end TravelBudget
